import Mathlib

/-!
# Verification of the AI workflow system's orchestration and generation core

Shallow embedding of the gate-policy resolvers, orchestrator control flow,
provider-adapter retry/budget logic, manifest persistence and content
pipeline of the repository, with theorems settling the spec's claims.

Sources embedded:
* `ai-workflow/workflow-runner.py` (MVP orchestrator and gate resolver)
* `dev_workflow/enterprise-ai-workflow-runner.py` (enterprise orchestrator)
* `ai-workflow/llm_api_integration.py` (provider adapter, usage tracker,
  retry loop, response validation)
* `ai-workflow/workflow-executor.py` (manifest store)
* `ai-workflow/content_generation_engine.py` (prompt assembly, post-processing)
-/

namespace AIWorkflow

/-- `AutomationMode` enum, shared by both runners. -/
inductive AutomationMode where
  | guided
  | autonomous
  | learning
deriving DecidableEq, Repr

/-- `GateDecision` enum.  The MVP runner's enum has no
`APPROVAL_BOARD_REQUIRED` member; its resolver never produces that value,
so a single type covers both runners. -/
inductive GateDecision where
  | required
  | optional
  | skip
  | learnFromHistory
  | approvalBoardRequired
deriving DecidableEq, Repr

/-- `ComplianceFramework` enum of the enterprise runner. -/
inductive ComplianceFramework where
  | GDPR
  | SOC2
  | PCI
  | HIPAA
  | ISO27001
deriving DecidableEq, Repr

/-- `WorkflowStep` dataclass of `workflow-runner.py`. -/
structure WorkflowStep where
  number : String
  doc_name : String
  phase : String
  gate_name : String
  dependencies : List String
deriving DecidableEq, Repr

/-- `ExecutionContext` dataclass of `workflow-runner.py` (the fields the
resolver and orchestrator consult; `feature_dir`, `technology_stack` and
`approval_history` are never read by the embedded operations). -/
structure ExecutionContext where
  feature_name : String
  mode : AutomationMode
  risk_score : ℚ := 0
  context_mode : String := "STANDALONE_FEATURE"
deriving DecidableEq, Repr

/-- `EnterpriseWorkflowStep` dataclass of `enterprise-ai-workflow-runner.py`. -/
structure EnterpriseWorkflowStep where
  number : String
  doc_name : String
  phase : String
  gate_name : String
  dependencies : List String
  compliance_impact : Bool := false
deriving DecidableEq, Repr

/-- `EnterpriseExecutionContext` dataclass (fields consulted by the
embedded operations). -/
structure EnterpriseExecutionContext where
  feature_name : String
  mode : AutomationMode
  risk_score : ℚ := 0
  compliance_framework : Option ComplianceFramework := none
  multi_team_coordination : Bool := false
  architecture_impact : Bool := false
deriving DecidableEq, Repr

/-- The per-mode gate tables, `config['automation_modes'][mode]['gates']`:
a partial map from gate name to a raw behavior string. -/
def GateTable := AutomationMode → String → Option String

/- ### MVP gate resolver (`workflow-runner.py`, lines 560-599) -/

/-- `_evaluate_learning_gate`: no learning model yet; defaults to required. -/
def evaluate_learning_gate (_step : WorkflowStep) (_ctx : ExecutionContext) :
    GateDecision :=
  GateDecision.required

/-- `_evaluate_technology_gate`: the new-technology check is a stub and
returns optional. -/
def evaluate_technology_gate (_step : WorkflowStep) (_ctx : ExecutionContext) :
    GateDecision :=
  GateDecision.optional

/-- `_evaluate_destructive_gate`: only the `task_implementation` gate is
treated as destructive. -/
def evaluate_destructive_gate (step : WorkflowStep) (_ctx : ExecutionContext) :
    GateDecision :=
  if step.gate_name = "task_implementation" then GateDecision.required
  else GateDecision.optional

/-- `WorkflowOrchestrator.is_gate_required`. -/
def is_gate_required (gates : GateTable) (step : WorkflowStep)
    (ctx : ExecutionContext) : GateDecision :=
  let gate_behavior := (gates ctx.mode step.gate_name).getD "required"
  if gate_behavior = "required" then GateDecision.required
  else if gate_behavior = "optional" then GateDecision.optional
  else if gate_behavior = "skip" then GateDecision.skip
  else if gate_behavior = "learn_from_history" then
    evaluate_learning_gate step ctx
  else if gate_behavior = "required_for_new_tech" then
    evaluate_technology_gate step ctx
  else if gate_behavior = "required_for_destructive" then
    evaluate_destructive_gate step ctx
  else GateDecision.required

/- ### Enterprise gate resolver (`enterprise-ai-workflow-runner.py`,
lines 169-224) -/

/-- `_evaluate_enterprise_learning_gate`: defaults to required for
enterprise safety. -/
def evaluate_enterprise_learning_gate (_step : EnterpriseWorkflowStep)
    (_ctx : EnterpriseExecutionContext) : GateDecision :=
  GateDecision.required

/-- `_evaluate_architecture_gate`. -/
def evaluate_architecture_gate (_step : EnterpriseWorkflowStep)
    (ctx : EnterpriseExecutionContext) : GateDecision :=
  if ctx.architecture_impact then GateDecision.required
  else GateDecision.optional

/-- `_evaluate_compliance_gate`. -/
def evaluate_compliance_gate (step : EnterpriseWorkflowStep)
    (ctx : EnterpriseExecutionContext) : GateDecision :=
  if ctx.compliance_framework.isSome ∧ step.compliance_impact then
    GateDecision.required
  else GateDecision.optional

/-- `_evaluate_production_gate`: only the `enterprise_task_creation` gate
always requires approval. -/
def evaluate_production_gate (step : EnterpriseWorkflowStep)
    (_ctx : EnterpriseExecutionContext) : GateDecision :=
  if step.gate_name = "enterprise_task_creation" then GateDecision.required
  else GateDecision.optional

/-- `EnterpriseWorkflowOrchestrator.is_enterprise_gate_required`, including
the compliance upgrade of a raw `"skip"` entry to `"required"`. -/
def is_enterprise_gate_required (gates : GateTable)
    (step : EnterpriseWorkflowStep) (ctx : EnterpriseExecutionContext) :
    GateDecision :=
  let gb := (gates ctx.mode step.gate_name).getD "required"
  let gate_behavior :=
    if ctx.compliance_framework.isSome ∧ step.compliance_impact ∧ gb = "skip"
    then "required" else gb
  if gate_behavior = "required" then GateDecision.required
  else if gate_behavior = "optional" then GateDecision.optional
  else if gate_behavior = "skip" then GateDecision.skip
  else if gate_behavior = "learn_from_history" then
    evaluate_enterprise_learning_gate step ctx
  else if gate_behavior = "required_for_new_architecture" then
    evaluate_architecture_gate step ctx
  else if gate_behavior = "required_for_compliance_changes" then
    evaluate_compliance_gate step ctx
  else if gate_behavior = "required_for_production_changes" then
    evaluate_production_gate step ctx
  else if gate_behavior = "required_with_approval_board" then
    GateDecision.approvalBoardRequired
  else GateDecision.required

/-- The behavior strings the MVP resolver's `if`/`elif` chain recognizes. -/
def mvpKnownBehaviors : List String :=
  ["required", "optional", "skip", "learn_from_history",
   "required_for_new_tech", "required_for_destructive"]

/-- The behavior strings the enterprise resolver's chain recognizes. -/
def enterpriseKnownBehaviors : List String :=
  ["required", "optional", "skip", "learn_from_history",
   "required_for_new_architecture", "required_for_compliance_changes",
   "required_for_production_changes", "required_with_approval_board"]

/- ### Orchestrator control flow (`workflow-runner.py`, lines 655-799, and
`enterprise-ai-workflow-runner.py`, lines 298-381).

Operator input is modeled by oracles: the run-confirmation answer is one
string, and each step's human gate consumes a list of answers (the gate
re-prompts on unrecognized input).  `_execute_document_workflow`'s outcome
is an oracle from step number to success. -/

/-- Python's `str.lower()` on the answer strings (ASCII case mapping,
character by character). -/
def pyLower (s : String) : String :=
  String.mk (s.data.map Char.toLower)

/-- Python's `str.strip()`: whitespace removed from both ends. -/
def pyStrip (s : String) : String :=
  String.mk
    (((s.data.dropWhile Char.isWhitespace).reverse.dropWhile
      Char.isWhitespace).reverse)

/-- One iteration of the `_execute_human_gate` prompt loop: the raw answer
is lowercased and stripped; `'y'` approves, `'n'` or empty rejects, `'s'`
("Skip this step") approves, and `'?'` or anything else re-prompts
(`none`). -/
def gate_response_decision (raw : String) : Option Bool :=
  let response := pyStrip (pyLower raw)
  if response = "y" then some true
  else if response = "n" ∨ response = "" then some false
  else if response = "s" then some true
  else none

/-- `_execute_human_gate`'s prompt loop over a list of operator answers.
An exhausted list models `KeyboardInterrupt`, which returns `False`. -/
def execute_human_gate : List String → Bool
  | [] => false
  | r :: rest =>
    match gate_response_decision r with
    | some b => b
    | none => execute_human_gate rest

/-- Outcome of `_execute_step`: whether the gate passed (or was not
consulted), whether the step's document generation ran, and the step's
overall success. -/
structure StepOutcome where
  approved : Bool
  generationRan : Bool
  success : Bool
deriving DecidableEq, Repr

/-- `WorkflowOrchestrator._execute_step`: the human gate is consulted only
for a `required` decision; on approval (including the `'s'` answer) the
document workflow runs. -/
def execute_step (decision : GateDecision) (gateResponses : List String)
    (docSuccess : Bool) : StepOutcome :=
  if decision = GateDecision.required then
    if execute_human_gate gateResponses then
      { approved := true, generationRan := true, success := docSuccess }
    else
      { approved := false, generationRan := false, success := false }
  else
    { approved := true, generationRan := true, success := docSuccess }

/-- `create_execution_plan`: resolve a decision for every step in catalog
order. -/
def create_execution_plan (gates : GateTable) (steps : List WorkflowStep)
    (ctx : ExecutionContext) : List (WorkflowStep × GateDecision) :=
  steps.map (fun step => (step, is_gate_required gates step ctx))

/-- The step loop of `execute_workflow`: returns the gate names prompted
(in order) and the overall success; a failing step breaks the loop. -/
def run_plan (gateResponses : String → List String)
    (docSuccess : String → Bool) :
    List (WorkflowStep × GateDecision) → List String × Bool
  | [] => ([], true)
  | (step, decision) :: rest =>
    let outcome := execute_step decision (gateResponses step.number)
      (docSuccess step.number)
    let prompted : List String :=
      if decision = GateDecision.required then [step.gate_name] else []
    if outcome.success then
      let (gs, ok) := run_plan gateResponses docSuccess rest
      (prompted ++ gs, ok)
    else (prompted, false)

/-- Result of a full orchestrator run: overall success, whether the
initial run-confirmation prompt was presented, and the gate names
prompted during step execution. -/
structure WorkflowRunResult where
  success : Bool
  promptedConfirmation : Bool
  gatesPrompted : List String
deriving DecidableEq, Repr

/-- `WorkflowOrchestrator.execute_workflow`: dry-run terminates before any
step; `autonomous` mode enters the step loop without the confirmation
prompt; other modes prompt and cancel unless the lowered answer is
`"y"`. -/
def execute_workflow (gates : GateTable) (steps : List WorkflowStep)
    (ctx : ExecutionContext) (dryRun : Bool) (confirm : String)
    (gateResponses : String → List String) (docSuccess : String → Bool) :
    WorkflowRunResult :=
  let plan := create_execution_plan gates steps ctx
  if dryRun then
    { success := true, promptedConfirmation := false, gatesPrompted := [] }
  else if ctx.mode = AutomationMode.autonomous then
    let (gs, ok) := run_plan gateResponses docSuccess plan
    { success := ok, promptedConfirmation := false, gatesPrompted := gs }
  else if pyLower confirm ≠ "y" then
    { success := false, promptedConfirmation := true, gatesPrompted := [] }
  else
    let (gs, ok) := run_plan gateResponses docSuccess plan
    { success := ok, promptedConfirmation := true, gatesPrompted := gs }

/-- `_execute_enterprise_human_gate`: a single prompt; only a lowered
`'y'` approves. -/
def execute_enterprise_human_gate (raw : String) : Bool :=
  pyLower raw = "y"

/-- `_execute_enterprise_step`: the gate is consulted for `required` or
`approval_board_required` decisions. -/
def execute_enterprise_step (decision : GateDecision) (gateResponse : String)
    (docSuccess : Bool) : StepOutcome :=
  if decision = GateDecision.required ∨
     decision = GateDecision.approvalBoardRequired then
    if execute_enterprise_human_gate gateResponse then
      { approved := true, generationRan := true, success := docSuccess }
    else
      { approved := false, generationRan := false, success := false }
  else
    { approved := true, generationRan := true, success := docSuccess }

/-- `create_enterprise_execution_plan`. -/
def create_enterprise_execution_plan (gates : GateTable)
    (steps : List EnterpriseWorkflowStep) (ctx : EnterpriseExecutionContext) :
    List (EnterpriseWorkflowStep × GateDecision) :=
  steps.map (fun step => (step, is_enterprise_gate_required gates step ctx))

/-- The step loop of `execute_enterprise_workflow`. -/
def run_enterprise_plan (gateResponses : String → String)
    (docSuccess : String → Bool) :
    List (EnterpriseWorkflowStep × GateDecision) → List String × Bool
  | [] => ([], true)
  | (step, decision) :: rest =>
    let outcome := execute_enterprise_step decision (gateResponses step.number)
      (docSuccess step.number)
    let prompted : List String :=
      if decision = GateDecision.required ∨
         decision = GateDecision.approvalBoardRequired then [step.gate_name]
      else []
    if outcome.success then
      let (gs, ok) := run_enterprise_plan gateResponses docSuccess rest
      (prompted ++ gs, ok)
    else (prompted, false)

/-- `EnterpriseWorkflowOrchestrator.execute_enterprise_workflow`: after a
non-dry-run plan display, the run-confirmation prompt is presented
unconditionally — there is no autonomous bypass in the enterprise
runner. -/
def execute_enterprise_workflow (gates : GateTable)
    (steps : List EnterpriseWorkflowStep) (ctx : EnterpriseExecutionContext)
    (dryRun : Bool) (confirm : String) (gateResponses : String → String)
    (docSuccess : String → Bool) : WorkflowRunResult :=
  let plan := create_enterprise_execution_plan gates steps ctx
  if dryRun then
    { success := true, promptedConfirmation := false, gatesPrompted := [] }
  else if pyLower confirm ≠ "y" then
    { success := false, promptedConfirmation := true, gatesPrompted := [] }
  else
    let (gs, ok) := run_enterprise_plan gateResponses docSuccess plan
    { success := ok, promptedConfirmation := true, gatesPrompted := gs }

/- ### String containment (Python's `in` operator on `str`) -/

/-- `listIsPrefix needle hay`: the first list is a prefix of the second. -/
def listIsPrefix : List Char → List Char → Bool
  | [], _ => true
  | _ :: _, [] => false
  | a :: as, b :: bs => a == b && listIsPrefix as bs

/-- `listContains needle hay`: the first list occurs contiguously inside
the second. -/
def listContains (needle : List Char) : List Char → Bool
  | [] => needle.isEmpty
  | b :: bs => listIsPrefix needle (b :: bs) || listContains needle bs

/-- Python's `needle in hay` on strings. -/
def strContains (hay needle : String) : Bool :=
  listContains needle.data hay.data

/- ### Provider adapter, usage tracker, retry loop and response
validation (`llm_api_integration.py`) -/

/-- The fields of `LLMConfig` the embedded `generate_content` consults
(`max_tokens`, `temperature` and `timeout` are passed through to the
provider client and never branch the embedded control flow). -/
structure LLMConfig where
  provider : String
  model : String
  max_retries : Nat := 3
  cost_limit_usd : ℚ := 10
deriving DecidableEq, Repr

/-- `LLMResponse` dataclass (the `validation_errors = None` default is
modeled as the empty list). -/
structure LLMResponse where
  content : String
  provider : String
  model : String
  tokens_used : Nat
  cost_usd : ℚ
  execution_time : ℚ := 0
  validated : Bool := false
  validation_errors : List String := []
deriving DecidableEq, Repr

/-- `self.usage_tracker = {"total_tokens": 0, "total_cost_usd": 0.0}`. -/
structure UsageTracker where
  total_tokens : Nat
  total_cost_usd : ℚ
deriving DecidableEq, Repr

/-- A validation criterion, pre-parsed from the criterion strings of
`_validate_response` (`"not_empty"`, `"contains_markdown"`,
`"min_length:N"`, `"contains:TEXT"`; any other string matches no branch
and is `other`). -/
inductive Criterion where
  | notEmpty
  | containsMarkdown
  | minLength (n : Nat)
  | containsText (s : String)
  | other (s : String)
deriving DecidableEq, Repr

/-- One pass of `_validate_response`'s `for criterion in criteria` body:
the error message recorded for this criterion, if it fails. -/
def checkCriterion (content : String) : Criterion → Option String
  | Criterion.notEmpty =>
    if pyStrip content = "" then some "Content is empty" else none
  | Criterion.containsMarkdown =>
    if ¬ (["#", "*", "`", "-"].any (fun marker => strContains content marker))
    then some "Content does not contain markdown formatting" else none
  | Criterion.minLength n =>
    if content.length < n then
      some ("Content too short (< " ++ toString n ++ " characters)")
    else none
  | Criterion.containsText s =>
    if ¬ strContains (pyLower content) (pyLower s) then
      some ("Content does not contain required text: " ++ s)
    else none
  | Criterion.other _ => none

/-- `_validate_response`: failures are collected in order; the content is
left untouched; `validated` records whether no criterion failed. -/
def validate_response (response : LLMResponse) (criteria : List Criterion) :
    LLMResponse :=
  let validation_errors := criteria.filterMap (checkCriterion response.content)
  { response with
    validated := validation_errors.isEmpty,
    validation_errors := validation_errors }

/-- Outcome of one provider attempt (`self._generate_*`): a normalized
response's payload, or a raised exception's message. -/
inductive AttemptOutcome where
  | ok (tokens : Nat) (cost : ℚ) (content : String)
  | err (msg : String)
deriving DecidableEq, Repr

/-- Observable effects of a `generate_content` call: the usage tracker
after the call, the number of provider attempts made, and the backoff
delays slept (in seconds, in order). -/
structure GenState where
  tracker : UsageTracker
  attemptsMade : Nat
  sleeps : List Nat
deriving DecidableEq, Repr

/-- The `for attempt in range(self.config.max_retries)` retry loop of
`generate_content`.  `remaining` is `max_retries - attempt`.  On success
the usage tracker is updated and the response validated (when criteria
are configured); on failure the exception propagates once
`attempt == max_retries - 1`, otherwise the loop sleeps `2 ** attempt`
seconds and retries. -/
def generate_content_loop (backend : Nat → AttemptOutcome)
    (criteria : List Criterion) (cfgProvider cfgModel : String) :
    Nat → Nat → GenState → Except String LLMResponse × GenState
  | _, 0, st => (Except.error "no retry attempts configured", st)
  | attempt, remaining + 1, st =>
    match backend attempt with
    | AttemptOutcome.ok tokens cost content =>
      let st' : GenState :=
        { st with
          tracker :=
            { total_tokens := st.tracker.total_tokens + tokens,
              total_cost_usd := st.tracker.total_cost_usd + cost },
          attemptsMade := st.attemptsMade + 1 }
      let response : LLMResponse :=
        { content := content, provider := cfgProvider, model := cfgModel,
          tokens_used := tokens, cost_usd := cost }
      let response :=
        if criteria.isEmpty then response
        else validate_response response criteria
      (Except.ok response, st')
    | AttemptOutcome.err msg =>
      let st' : GenState := { st with attemptsMade := st.attemptsMade + 1 }
      if remaining = 0 then (Except.error msg, st')
      else
        generate_content_loop backend criteria cfgProvider cfgModel
          (attempt + 1) remaining
          { st' with sleeps := st'.sleeps ++ [2 ^ attempt] }

/-- `LLMAPIIntegration.generate_content`: the cost-limit check runs before
any provider attempt; when it trips, the call raises at once with the
usage totals untouched and zero attempts made. -/
def generate_content (cfg : LLMConfig) (tracker : UsageTracker)
    (backend : Nat → AttemptOutcome) (criteria : List Criterion) :
    Except String LLMResponse × GenState :=
  if tracker.total_cost_usd ≥ cfg.cost_limit_usd then
    (Except.error "Cost limit exceeded",
     { tracker := tracker, attemptsMade := 0, sleeps := [] })
  else
    generate_content_loop backend criteria cfg.provider cfg.model 0
      cfg.max_retries { tracker := tracker, attemptsMade := 0, sleeps := [] }

/- ### Manifest store (`workflow-executor.py`, `WorkflowContext`) -/

namespace Executor

/-- `feature_metadata` block of the base manifest. -/
structure ManifestMetadata where
  feature_name : String
  feature_slug : String
  creation_date : String
  creator : String
deriving DecidableEq, Repr

/-- `workflow_status` block of the manifest. -/
structure ManifestWorkflowStatus where
  current_phase : String
  phases_completed : List String
  phases_remaining : List String
  last_updated : String
deriving DecidableEq, Repr

/-- The feature manifest JSON (`feature-manifest.json`).  The
`document_status` dict is created empty and never touched by
`save_to_manifest`, so it is omitted. -/
structure FeatureManifest where
  feature_metadata : ManifestMetadata
  workflow_status : ManifestWorkflowStatus
  execution_log : List String
  generated_files : List String
deriving DecidableEq, Repr

/-- The executor `WorkflowContext` dataclass (its `feature_dir` `Path` is
a string here). -/
structure WorkflowContext where
  feature_name : String
  feature_slug : String
  feature_dir : String
  mode : String
  phase : String
  step_number : String
  project_data : List (String × String)
  generated_files : List String
  execution_log : List String
deriving DecidableEq, Repr

/-- `WorkflowContext._create_base_manifest`. -/
def create_base_manifest (ctx : WorkflowContext) (now : String) :
    FeatureManifest :=
  { feature_metadata :=
      { feature_name := ctx.feature_name, feature_slug := ctx.feature_slug,
        creation_date := now, creator := "workflow-executor" },
    workflow_status :=
      { current_phase := ctx.phase, phases_completed := [],
        phases_remaining := [], last_updated := now },
    execution_log := [],
    generated_files := [] }

/-- `WorkflowContext.save_to_manifest`: read the existing manifest (or
create the base one), update the phase and timestamp, extend the
execution log and generated-files lists with the context lists, and write
the result back. -/
def save_to_manifest (existing : Option FeatureManifest)
    (ctx : WorkflowContext) (now : String) : FeatureManifest :=
  let manifest :=
    match existing with
    | some m => m
    | none => create_base_manifest ctx now
  { manifest with
    workflow_status :=
      { manifest.workflow_status with
        current_phase := ctx.phase, last_updated := now },
    execution_log := manifest.execution_log ++ ctx.execution_log,
    generated_files := manifest.generated_files ++ ctx.generated_files }

/-- Iterated write / read-back / append / write cycles: each cycle saves
with the (freshly read) manifest just written. -/
def save_cycles (m : FeatureManifest) :
    List (WorkflowContext × String) → FeatureManifest
  | [] => m
  | (ctx, now) :: rest => save_cycles (save_to_manifest (some m) ctx now) rest

end Executor

/- ### Content generation engine (`content_generation_engine.py`) -/

/-- The on-disk file store: path to contents, `none` when the path does
not exist. -/
def FileSystem := String → Option String

/-- `Path(p).name`: the final path component. -/
def pathName (p : String) : String :=
  ((p.splitOn "/").getLast?).getD p

/-- Python `str.upper()` (ASCII case mapping, character by character). -/
def pyUpper (s : String) : String :=
  String.mk (s.data.map Char.toUpper)

/-- `sep.join(parts)`. -/
def pyJoin (sep : String) : List String → String
  | [] => ""
  | a :: as => as.foldl (fun acc x => acc ++ sep ++ x) a

/-- Auxiliary for `pySplitWs` (accumulator holds the current word,
reversed). -/
def splitWsAux : List Char → List Char → List String
  | [], acc => if acc.isEmpty then [] else [String.mk acc.reverse]
  | c :: cs, acc =>
    if c.isWhitespace then
      if acc.isEmpty then splitWsAux cs []
      else String.mk acc.reverse :: splitWsAux cs []
    else splitWsAux cs (c :: acc)

/-- Python `str.split()` with no argument: split on whitespace runs,
dropping empty pieces. -/
def pySplitWs (s : String) : List String :=
  splitWsAux s.data []

/-- Auxiliary for `pySplitChar`. -/
def splitCharAux (sep : Char) : List Char → List Char → List String
  | [], acc => [String.mk acc.reverse]
  | c :: cs, acc =>
    if c = sep then String.mk acc.reverse :: splitCharAux sep cs []
    else splitCharAux sep cs (c :: acc)

/-- Python `str.split(sep)` for a one-character separator (keeps empty
pieces). -/
def pySplitChar (s : String) (sep : Char) : List String :=
  splitCharAux sep s.data []

/-- Python `str.startswith(pre)`. -/
def pyStartsWith (s pre : String) : Bool :=
  listIsPrefix pre.data s.data

namespace Engine

/-- The engine `WorkflowContext` dataclass.  `project_data` is the
string-keyed map of collected answers (values used by the prompt builder
are strings); `previous_outputs` maps step names to their outputs. -/
structure WorkflowContext where
  feature_name : String
  feature_slug : String
  feature_dir : String
  workflow_step : String
  phase : String
  project_data : List (String × String)
  previous_outputs : List (String × String) := []
deriving DecidableEq, Repr

/-- `ContentGenerationRequest` dataclass. -/
structure ContentGenerationRequest where
  workflow_document : String
  context : WorkflowContext
  output_file : String
  content_type : String
  template_sections : List (String × String) := []
  ai_directives : List String := []
deriving DecidableEq, Repr

/-- `dict.get(key, default)` on the project-data map. -/
def pdGet (pd : List (String × String)) (key dflt : String) : String :=
  (pd.lookup key).getD dflt

/-- `dict.get(key)` with no default: Python yields `None`, which an
f-string renders as the text `"None"`. -/
def pdGetNone (pd : List (String × String)) (key : String) : String :=
  (pd.lookup key).getD "None"

/-- Models `json.dumps(project_data, indent=2)` on a string-keyed,
string-valued map (the claims never inspect this rendering). -/
def jsonDumps (pd : List (String × String)) : String :=
  "\x7b\n" ++
    pyJoin ",\n"
      (pd.map (fun kv => "  \"" ++ kv.1 ++ "\": \"" ++ kv.2 ++ "\"")) ++
  "\n\x7d"

/-- `_extract_backend_from_stack`. -/
def extract_backend_from_stack (tech_stack : String) : String :=
  if tech_stack = "" then "Not specified"
  else if strContains tech_stack "Node.js" ∧ strContains tech_stack "Express"
    then "Node.js + Express"
  else if strContains tech_stack "Python" ∧ strContains tech_stack "FastAPI"
    then "Python + FastAPI"
  else if strContains tech_stack "Python" ∧ strContains tech_stack "Flask"
    then "Python + Flask"
  else if strContains tech_stack "Node.js" then "Node.js"
  else if strContains tech_stack "Python" then "Python"
  else
    match tech_stack.splitOn "+" with
    | [] => "Not specified"
    | p :: _ => pyStrip p

/-- `_extract_frontend_from_stack`. -/
def extract_frontend_from_stack (tech_stack : String) : String :=
  if tech_stack = "" then "Not specified"
  else if strContains tech_stack "Vanilla JS" ∨
          strContains (pyLower tech_stack) "vanilla"
    then "Vanilla JavaScript"
  else if strContains tech_stack "React" then "React"
  else if strContains tech_stack "Vue" then "Vue.js"
  else if strContains tech_stack "Angular" then "Angular"
  else if strContains tech_stack "HTML/CSS/JS" then "HTML/CSS/JavaScript"
  else if strContains tech_stack "JavaScript" ∨ strContains tech_stack "JS"
    then "JavaScript"
  else "Not specified"

/-- `_extract_database_from_stack`. -/
def extract_database_from_stack (tech_stack : String) : String :=
  if tech_stack = "" then "Not specified"
  else if strContains tech_stack "SQLite" then "SQLite"
  else if strContains tech_stack "PostgreSQL" then "PostgreSQL"
  else if strContains tech_stack "MySQL" then "MySQL"
  else if strContains tech_stack "MongoDB" then "MongoDB"
  else "Not specified"

/-- `content_type_mapping` shared by `_select_llm_for_content_type` and
`_create_specialized_prompt`. -/
def content_type_mapping : List (String × String) :=
  [("mvp_entrypoint", "mvp_entrypoint"), ("prd", "gen_prd"),
   ("srs", "gen_srs"), ("design_decisions", "gen_design_decisions"),
   ("design_analysis", "gen_design"), ("tasks", "gen_tasks_and_testing"),
   ("task_processing", "process_tasks"),
   ("completion_summary", "gen_completion_summary"),
   ("enterprise", "enterprise_scaling")]

/-- The parts of `llm-config.json` the prompt builder reads:
`workflow_specific_configs[key]["system_prompt"]`,
`prompt_engineering.common_instructions`, and
`prompt_engineering.validation_criteria` (per content type, with the
`"default"` entry as fallback). -/
structure PromptEngineConfig where
  system_prompts : String → Option String
  common_instructions : List String
  validation_config : String → Option (List Criterion)
  validation_default : List Criterion

/-- `_get_validation_criteria`. -/
def get_validation_criteria (cfg : PromptEngineConfig)
    (content_type : String) : List Criterion :=
  (cfg.validation_config content_type).getD cfg.validation_default

/-- The `LLMRequest` returned by `_create_specialized_prompt` (its
`context_data` is the project-data map itself and its `expected_format`
is the constant `"markdown"`; both omitted). -/
structure SpecializedPrompt where
  prompt : String
  system_prompt : String
  validation_criteria : List Criterion
deriving Repr

/-- The workflow-document block of `_create_specialized_prompt`
(`prompt_parts` head): full document body when the path exists, the
filename-only fallback otherwise. -/
def workflow_doc_parts (fs : FileSystem) (workflow_document : String) :
    List String :=
  match fs workflow_document with
  | some workflow_content =>
    ["# Workflow Document: " ++ pathName workflow_document,
     "## Complete Workflow Document Content:",
     "```markdown\n" ++ workflow_content ++ "\n```",
     "\n**INSTRUCTION**: Follow the specific instructions, questions, and guidelines provided in the workflow document above."]
  | none =>
    ["# Workflow Document: " ++ workflow_document,
     "Please execute the instructions in the workflow document: " ++
       workflow_document]

/-- The context-information block of `_create_specialized_prompt`. -/
def context_parts (req : ContentGenerationRequest) : List String :=
  ["\n## Project Context",
   "- **Feature Name**: " ++ req.context.feature_name,
   "- **Feature Slug**: " ++ req.context.feature_slug,
   "- **Workflow Step**: " ++ req.context.workflow_step,
   "- **Phase**: " ++ req.context.phase,
   "- **Output File**: " ++ req.output_file]

/-- The project-data block of `_create_specialized_prompt`, including the
content-type-specific instruction sub-blocks. -/
def project_data_parts (req : ContentGenerationRequest) : List String :=
  let pd := req.context.project_data
  if pd.isEmpty then [] else
    ["\n## Project Data (CRITICAL CONTEXT)",
     "```json\n" ++ jsonDumps pd ++ "\n```",
     "\n## CRITICAL: Use Real Project Data",
     "**IMPORTANT**: The project data above contains REAL user answers from enhanced MVP initialization.",
     "- **Project Name**: `" ++ pdGet pd "project_name" "Unknown Project" ++ "`",
     "- **Primary User**: `" ++ pdGet pd "primary_user" "Unknown User" ++ "`",
     "- **Pain Point**: `" ++ pdGet pd "user_pain_point" "Unknown Pain Point" ++ "`",
     "- **Tech Stack**: `" ++ pdGet pd "recommended_tech_stack" "Unknown Tech Stack" ++ "`",
     "- **Business Model**: `" ++ pdGet pd "business_model" "Unknown Business Model" ++ "`",
     "- **Success Metric**: `" ++ pdGet pd "key_success_metric" "Unknown Metric" ++ "`"]
    ++
    (if req.content_type = "mvp_entrypoint" then
      ["\n**MVP ENTRYPOINT INSTRUCTIONS**:",
       "- Replace ALL placeholder fields with actual values from project data",
       "- Generate comprehensive, real documentation based on collected user data",
       "- Do NOT use placeholder text or field names"]
    else if req.content_type = "tasks" then
      ["\n**TASKS GENERATION INSTRUCTIONS**:",
       "- Use the EXACT tech stack: `" ++ pdGet pd "recommended_tech_stack" "specified stack" ++ "`",
       "- Target the specific user type: `" ++ pdGet pd "primary_user" "users" ++ "`",
       "- Address the specific pain point: `" ++ pdGet pd "user_pain_point" "user needs" ++ "`",
       "- Align with business model: `" ++ pdGet pd "business_model" "business approach" ++ "`",
       "- Target success metric: `" ++ pdGet pd "key_success_metric" "success measures" ++ "`",
       "- Reference AI tech stack reasoning: `" ++ pdGet pd "tech_stack_reasoning" "technical decisions" ++ "`"]
    else if req.content_type = "design_decisions" then
      ["\n**CRITICAL OVERRIDE: DESIGN DECISIONS INSTRUCTIONS**:",
       "**IGNORE WORKFLOW QUESTIONNAIRES** - The user has completed an ENHANCED AI-guided tech stack selection process.",
       "",
       "**SELECTED TECHNOLOGY STACK**: `" ++ pdGet pd "recommended_tech_stack" "technologies" ++ "`",
       "- Backend: " ++ extract_backend_from_stack (pdGet pd "recommended_tech_stack" ""),
       "- Frontend: " ++ extract_frontend_from_stack (pdGet pd "recommended_tech_stack" ""),
       "- Database: " ++ extract_database_from_stack (pdGet pd "recommended_tech_stack" ""),
       "",
       "**YOUR TASK**: Document these EXACT selections with rationale, learning resources, and implementation guidance.",
       "**DO NOT**: Run questionnaires, suggest alternatives, or make different tech choices.",
       "**DO**: Explain why these selections are good for: " ++ pdGet pd "primary_user" "users" ++ " solving " ++ pdGet pd "user_pain_point" "challenges",
       "**AI Selection Reasoning**: " ++ pdGet pd "tech_stack_reasoning" "User made this selection with AI guidance",
       "**Alternative Options Considered**: " ++ pdGet pd "alternative_options" "Other options were discussed",
       "",
       "**STRUCTURE**: Use the decision documentation format but populate with the SELECTED stack, not questionnaire results."]
    else if req.content_type = "prd" ∨ req.content_type = "srs" ∨
            req.content_type = "design_analysis" then
      ["\n**DOCUMENTATION INSTRUCTIONS**:",
       "- Incorporate user context: " ++ pdGet pd "primary_user" "users" ++ " dealing with " ++ pdGet pd "user_pain_point" "challenges",
       "- Use the selected tech stack: " ++ pdGet pd "recommended_tech_stack" "technologies",
       "- Align with business value: " ++ pdGet pd "business_model" "value creation",
       "- Target success criteria: " ++ pdGet pd "key_success_metric" "success measures"]
    else [])

/-- The previous-outputs block of `_create_specialized_prompt` (bounded
excerpts of substantial prior outputs). -/
def previous_parts (req : ContentGenerationRequest) : List String :=
  if req.context.previous_outputs.isEmpty then [] else
    "\n## Previous Workflow Outputs" ::
    (req.context.previous_outputs.map (fun so =>
      if so.2 ≠ "" ∧ 100 < so.2.length then
        ["### " ++ so.1,
         "```\n" ++
           (if 500 < so.2.length then String.mk (so.2.data.take 500) ++ "..."
            else so.2) ++ "\n```"]
      else [])).flatten

/-- The AI-directives block of `_create_specialized_prompt`. -/
def directive_parts (req : ContentGenerationRequest) : List String :=
  if req.ai_directives.isEmpty then [] else
    "\n## AI Directives" :: req.ai_directives.map (fun d => "- " ++ d)

/-- The template-sections block of `_create_specialized_prompt`. -/
def template_parts (req : ContentGenerationRequest) : List String :=
  if req.template_sections.isEmpty then [] else
    "\n## Template Sections" ::
    (req.template_sections.map (fun sc =>
      if pyStrip sc.2 ≠ "" then ["### " ++ sc.1, sc.2] else [])).flatten

/-- The common-instructions block of `_create_specialized_prompt`. -/
def instruction_parts (cfg : PromptEngineConfig) : List String :=
  "\n## Instructions" :: cfg.common_instructions.map (fun i => "- " ++ i)

/-- The output-requirements block of `_create_specialized_prompt`. -/
def output_parts (req : ContentGenerationRequest) : List String :=
  ["\n## Output Requirements",
   "- Generate content for: **" ++ req.output_file ++ "**",
   "- Content type: **" ++ req.content_type ++ "**",
   "- Use markdown formatting for clear structure",
   "- Follow the workflow document instructions precisely",
   "- Include all required sections and subsections",
   "- Make content practical and immediately actionable"]

/-- The feature-centric-path block of `_create_specialized_prompt`. -/
def feature_parts (req : ContentGenerationRequest) : List String :=
  ["\n## Feature-Centric Integration",
   "- Save content as: `" ++ req.output_file ++ "` (relative path within feature directory)",
   "- Use relative references to other workflow documents (e.g., `./prd.md`, `./srs.md`)",
   "- Include appropriate linkages to related workflow documents"]

/-- The final design-decisions override block of
`_create_specialized_prompt` (appended last). -/
def final_override_parts (req : ContentGenerationRequest) : List String :=
  let pd := req.context.project_data
  let eq80 := String.mk (List.replicate 80 '=')
  if req.content_type = "design_decisions" ∧ ¬ pd.isEmpty then
    ["\n\n" ++ eq80,
     "🚨 FINAL CRITICAL OVERRIDE - IGNORE ALL ABOVE QUESTIONNAIRES 🚨",
     eq80,
     "",
     "❌ IGNORE: All workflow questionnaire instructions above",
     "✅ TASK: Document the user\x27s ALREADY SELECTED tech stack",
     "",
     "📋 USER\x27S SELECTED STACK: " ++ pdGetNone pd "recommended_tech_stack",
     "🎯 USER\x27S TARGET: " ++ pdGetNone pd "primary_user" ++ " solving " ++ pdGetNone pd "user_pain_point",
     "💡 AI\x27S REASONING: " ++ pdGetNone pd "tech_stack_reasoning",
     "",
     "🔥 CRITICAL: Create a design decisions document that explains WHY the selected stack is good",
     "🔥 CRITICAL: Do NOT suggest different technologies or run any questionnaires",
     "🔥 CRITICAL: Focus on implementation guidance for the SELECTED stack only",
     "",
     eq80]
  else []

/-- `prompt_parts` of `_create_specialized_prompt`: all blocks
concatenated in source order. -/
def prompt_parts (fs : FileSystem) (cfg : PromptEngineConfig)
    (req : ContentGenerationRequest) : List String :=
  workflow_doc_parts fs req.workflow_document ++ context_parts req ++
  project_data_parts req ++ previous_parts req ++ directive_parts req ++
  template_parts req ++ instruction_parts cfg ++ output_parts req ++
  feature_parts req ++ final_override_parts req

/-- `ContentGenerationEngine._create_specialized_prompt`: joins
`prompt_parts` with newlines and pairs the prompt with the
content-type-specific system prompt and validation criteria. -/
def create_specialized_prompt (fs : FileSystem) (cfg : PromptEngineConfig)
    (req : ContentGenerationRequest) : SpecializedPrompt :=
  let config_key := (content_type_mapping.lookup req.content_type).getD "gen_prd"
  { prompt := pyJoin "\n" (prompt_parts fs cfg req),
    system_prompt :=
      (cfg.system_prompts config_key).getD "You are a helpful AI assistant.",
    validation_criteria := get_validation_criteria cfg req.content_type }

/-- `_post_process_content`: metadata header, duplicate-title removal,
provenance footer. -/
def post_process_content (content : String)
    (req : ContentGenerationRequest) (now : String) : String :=
  let processed :=
    "# " ++ req.context.feature_name ++ " - " ++ pyUpper req.content_type ++
    "\n\n" ++ "*Generated by automated workflow on " ++ now ++ "*\n\n"
  let cleaned_content := pyStrip content
  let lines := pySplitChar cleaned_content '\n'
  let cleaned_content :=
    match lines with
    | [] => cleaned_content
    | first :: rest =>
      let feature_words := pySplitWs (pyLower req.context.feature_name)
      let first_line_lower := pyLower first
      if pyStartsWith first "#" ∧
         feature_words.any (fun w => strContains first_line_lower w) then
        pyStrip (pyJoin "\n" rest)
      else cleaned_content
  processed ++ cleaned_content ++ "\n\n---\n" ++
    "*Generated by: " ++ req.workflow_document ++ " | Step: " ++
    req.context.workflow_step ++ " | Phase: " ++ req.context.phase ++ "*\n"

/-- The tail of `ContentGenerationEngine.generate_content` after the
adapter call: a failed validation only logs a warning; the (kept) content
is post-processed and returned.  An adapter exception propagates. -/
def engine_generate_content (llmResult : Except String LLMResponse)
    (req : ContentGenerationRequest) (now : String) : Except String String :=
  match llmResult with
  | Except.error e => Except.error e
  | Except.ok response =>
    Except.ok (post_process_content response.content req now)

end Engine

/-- The workflow-document existence check at the head of
`WorkflowOrchestrator._execute_document_workflow` (lines 811-817): a
missing document fails the step before the executor or the generation
pipeline is invoked; `executorSuccess` stands for the outcome of the rest
of the body. -/
def execute_document_workflow (fs : FileSystem) (docPath : String)
    (executorSuccess : Bool) : Bool :=
  if (fs docPath).isNone then false else executorSuccess

/-- A concrete engine context used by witnesses. -/
def sampleEngineCtx : Engine.WorkflowContext :=
  { feature_name := "demo", feature_slug := "demo", feature_dir := ".",
    workflow_step := "02", phase := "planning", project_data := [] }

/-- A concrete PRD generation request used by witnesses. -/
def sampleRequest : Engine.ContentGenerationRequest :=
  { workflow_document := "02-gen-prd.md", context := sampleEngineCtx,
    output_file := "prd.md", content_type := "prd" }

/-- An engine configuration with no configured prompts or criteria, used
by witnesses. -/
def emptyPromptCfg : Engine.PromptEngineConfig :=
  { system_prompts := fun _ => none, common_instructions := [],
    validation_config := fun _ => none, validation_default := [] }

/- ### Gate-policy and orchestrator theorems -/


set_option maxHeartbeats 1000000 in
/-- C1: for every enterprise step with `complianceImpact = true` and every
context whose compliance framework is set, `is_enterprise_gate_required`
never returns `skip`: a raw table entry of `"skip"` is upgraded to
`"required"`, and no other branch produces the skip decision, across all
automation modes and all gate-table entries. -/
theorem compliance_step_never_skips (gates : GateTable)
    (step : EnterpriseWorkflowStep) (ctx : EnterpriseExecutionContext)
    (hcf : ctx.compliance_framework.isSome = true)
    (hci : step.compliance_impact = true) :
    is_enterprise_gate_required gates step ctx ≠ GateDecision.skip := by
  unfold is_enterprise_gate_required evaluate_enterprise_learning_gate
    evaluate_architecture_gate evaluate_compliance_gate evaluate_production_gate
  simp only [hcf, hci, true_and]
  split_ifs <;> simp_all

/-- Witness for C1 at a concrete table mapping the step's gate to
`"skip"`, a compliance-impacting step, and a GDPR context. -/
theorem compliance_step_never_skips_witness :
    is_enterprise_gate_required
      (fun _ _ => some "skip")
      { number := "s03", doc_name := "srs.md", phase := "requirements",
        gate_name := "enterprise_srs_generation", dependencies := [],
        compliance_impact := true }
      { feature_name := "demo", mode := AutomationMode.autonomous,
        compliance_framework := some ComplianceFramework.GDPR }
      ≠ GateDecision.skip :=
  compliance_step_never_skips _ _ _ rfl rfl

/-- C2 counterexample: a step whose gate-table behavior is the conditional
rule `required_for_new_tech` resolves to `optional`, not `required`
(the technology gate's check is a stub returning optional). -/
theorem conditional_rule_not_required_cex :
    is_gate_required
      (fun _ g => if g = "design_decisions" then some "required_for_new_tech"
                  else none)
      { number := "04", doc_name := "04-gen-design-decisions-lite.md",
        phase := "planning", gate_name := "design_decisions",
        dependencies := [] }
      { feature_name := "demo", mode := AutomationMode.guided }
      = GateDecision.optional ∧
    GateDecision.optional ≠ GateDecision.required := by
  exact ⟨rfl, by decide⟩

/-- C2 amended: a conditional-rule behavior resolves to `required` exactly
under its associated condition, and to `optional` otherwise —
`required_for_destructive` only for the `task_implementation` gate,
`required_for_new_tech` never (stub), `required_for_production_changes`
only for the `enterprise_task_creation` gate,
`required_for_new_architecture` only when the context has architecture
impact, and `required_for_compliance_changes` only when a compliance
framework is set and the step is compliance-impacting; none of these
consult the mode's default table entry. -/
theorem conditional_rule_resolution :
    (∀ (gates : GateTable) (step : WorkflowStep) (ctx : ExecutionContext),
      gates ctx.mode step.gate_name = some "required_for_destructive" →
      is_gate_required gates step ctx =
        (if step.gate_name = "task_implementation" then GateDecision.required
         else GateDecision.optional)) ∧
    (∀ (gates : GateTable) (step : WorkflowStep) (ctx : ExecutionContext),
      gates ctx.mode step.gate_name = some "required_for_new_tech" →
      is_gate_required gates step ctx = GateDecision.optional) ∧
    (∀ (gates : GateTable) (step : EnterpriseWorkflowStep)
       (ctx : EnterpriseExecutionContext),
      gates ctx.mode step.gate_name = some "required_for_production_changes" →
      is_enterprise_gate_required gates step ctx =
        (if step.gate_name = "enterprise_task_creation" then
          GateDecision.required else GateDecision.optional)) ∧
    (∀ (gates : GateTable) (step : EnterpriseWorkflowStep)
       (ctx : EnterpriseExecutionContext),
      gates ctx.mode step.gate_name = some "required_for_new_architecture" →
      is_enterprise_gate_required gates step ctx =
        (if ctx.architecture_impact then GateDecision.required
         else GateDecision.optional)) ∧
    (∀ (gates : GateTable) (step : EnterpriseWorkflowStep)
       (ctx : EnterpriseExecutionContext),
      gates ctx.mode step.gate_name = some "required_for_compliance_changes" →
      is_enterprise_gate_required gates step ctx =
        (if ctx.compliance_framework.isSome ∧ step.compliance_impact then
          GateDecision.required else GateDecision.optional)) := by
  refine ⟨?_, ?_, ?_, ?_, ?_⟩
  · intro gates step ctx h
    unfold is_gate_required evaluate_destructive_gate
    rw [h]
    simp
  · intro gates step ctx h
    unfold is_gate_required evaluate_technology_gate
    rw [h]
    simp
  · intro gates step ctx h
    unfold is_enterprise_gate_required evaluate_production_gate
    rw [h]
    simp
  · intro gates step ctx h
    unfold is_enterprise_gate_required evaluate_architecture_gate
    rw [h]
    simp
  · intro gates step ctx h
    unfold is_enterprise_gate_required evaluate_compliance_gate
    rw [h]
    simp

/-- Witness for C2's amended theorem at concrete tables, steps and
contexts for each conjunct. -/
theorem conditional_rule_resolution_witness :
    is_gate_required (fun _ _ => some "required_for_destructive")
      { number := "07", doc_name := "07-process-tasks.md", phase := "implementation",
        gate_name := "task_implementation", dependencies := [] }
      { feature_name := "demo", mode := AutomationMode.guided }
      = GateDecision.required ∧
    is_gate_required (fun _ _ => some "required_for_new_tech")
      { number := "04", doc_name := "04-gen-design-decisions-lite.md",
        phase := "planning", gate_name := "design_decisions", dependencies := [] }
      { feature_name := "demo", mode := AutomationMode.guided }
      = GateDecision.optional ∧
    is_enterprise_gate_required (fun _ _ => some "required_for_production_changes")
      { number := "s05", doc_name := "design.md", phase := "design",
        gate_name := "enterprise_design_analysis", dependencies := [] }
      { feature_name := "demo", mode := AutomationMode.guided }
      = GateDecision.optional ∧
    is_enterprise_gate_required (fun _ _ => some "required_for_new_architecture")
      { number := "s02", doc_name := "design-decisions.md", phase := "design",
        gate_name := "enterprise_design_decisions", dependencies := [] }
      { feature_name := "demo", mode := AutomationMode.guided,
        architecture_impact := true }
      = GateDecision.required ∧
    is_enterprise_gate_required (fun _ _ => some "required_for_compliance_changes")
      { number := "s03", doc_name := "srs.md", phase := "requirements",
        gate_name := "enterprise_srs_generation", dependencies := [],
        compliance_impact := false }
      { feature_name := "demo", mode := AutomationMode.guided }
      = GateDecision.optional := by
  refine ⟨?_, ?_, ?_, ?_, ?_⟩
  · rw [conditional_rule_resolution.1 _ _ _ rfl]; rfl
  · rw [conditional_rule_resolution.2.1 _ _ _ rfl]
  · rw [conditional_rule_resolution.2.2.1 _ _ _ rfl]; rfl
  · rw [conditional_rule_resolution.2.2.2.1 _ _ _ rfl]; rfl
  · rw [conditional_rule_resolution.2.2.2.2 _ _ _ rfl]; rfl

set_option maxHeartbeats 2000000 in
/-- C7: a gate-table lookup that misses (no entry for the step's gate name)
or yields an unrecognized behavior string resolves to `required` in both
resolvers, and a `learn_from_history` entry likewise resolves to
`required` (the learning evaluators are conservative stubs). -/
theorem unknown_behavior_fail_safe :
    (∀ (gates : GateTable) (step : WorkflowStep) (ctx : ExecutionContext),
      gates ctx.mode step.gate_name = none →
      is_gate_required gates step ctx = GateDecision.required) ∧
    (∀ (gates : GateTable) (step : WorkflowStep) (ctx : ExecutionContext)
       (b : String), gates ctx.mode step.gate_name = some b →
      b ∉ mvpKnownBehaviors →
      is_gate_required gates step ctx = GateDecision.required) ∧
    (∀ (gates : GateTable) (step : WorkflowStep) (ctx : ExecutionContext),
      gates ctx.mode step.gate_name = some "learn_from_history" →
      is_gate_required gates step ctx = GateDecision.required) ∧
    (∀ (gates : GateTable) (step : EnterpriseWorkflowStep)
       (ctx : EnterpriseExecutionContext),
      gates ctx.mode step.gate_name = none →
      is_enterprise_gate_required gates step ctx = GateDecision.required) ∧
    (∀ (gates : GateTable) (step : EnterpriseWorkflowStep)
       (ctx : EnterpriseExecutionContext) (b : String),
      gates ctx.mode step.gate_name = some b →
      b ∉ enterpriseKnownBehaviors →
      is_enterprise_gate_required gates step ctx = GateDecision.required) ∧
    (∀ (gates : GateTable) (step : EnterpriseWorkflowStep)
       (ctx : EnterpriseExecutionContext),
      gates ctx.mode step.gate_name = some "learn_from_history" →
      is_enterprise_gate_required gates step ctx = GateDecision.required) := by
  refine ⟨?_, ?_, ?_, ?_, ?_, ?_⟩
  · intro gates step ctx h
    unfold is_gate_required
    rw [h]
    rfl
  · intro gates step ctx b h hb
    simp only [mvpKnownBehaviors, List.mem_cons, List.not_mem_nil, or_false,
      not_or] at hb
    unfold is_gate_required
    rw [h]
    simp only [Option.getD_some]
    split_ifs <;> simp_all
  · intro gates step ctx h
    unfold is_gate_required evaluate_learning_gate
    rw [h]
    simp
  · intro gates step ctx h
    unfold is_enterprise_gate_required
    rw [h]
    simp only [Option.getD_none]
    split_ifs <;> simp_all
  · intro gates step ctx b h hb
    simp only [enterpriseKnownBehaviors, List.mem_cons, List.not_mem_nil,
      or_false, not_or] at hb
    unfold is_enterprise_gate_required
    rw [h]
    simp only [Option.getD_some]
    split_ifs <;> simp_all
  · intro gates step ctx h
    unfold is_enterprise_gate_required evaluate_enterprise_learning_gate
    rw [h]
    simp only [Option.getD_some]
    split_ifs <;> simp_all

/-- Witness for C7: a missing entry, an unrecognized `"frobnicate"` entry
and a `learn_from_history` entry all resolve to `required`, in both
resolvers, at concrete inputs. -/
theorem unknown_behavior_fail_safe_witness :
    is_gate_required (fun _ _ => none)
      { number := "02", doc_name := "02-gen-prd.md", phase := "planning",
        gate_name := "prd_generation", dependencies := [] }
      { feature_name := "demo", mode := AutomationMode.learning }
      = GateDecision.required ∧
    is_gate_required (fun _ _ => some "frobnicate")
      { number := "02", doc_name := "02-gen-prd.md", phase := "planning",
        gate_name := "prd_generation", dependencies := [] }
      { feature_name := "demo", mode := AutomationMode.learning }
      = GateDecision.required ∧
    is_gate_required (fun _ _ => some "learn_from_history")
      { number := "02", doc_name := "02-gen-prd.md", phase := "planning",
        gate_name := "prd_generation", dependencies := [] }
      { feature_name := "demo", mode := AutomationMode.learning }
      = GateDecision.required ∧
    is_enterprise_gate_required (fun _ _ => none)
      { number := "s02", doc_name := "design-decisions.md", phase := "design",
        gate_name := "enterprise_design_decisions", dependencies := [] }
      { feature_name := "demo", mode := AutomationMode.learning }
      = GateDecision.required ∧
    is_enterprise_gate_required (fun _ _ => some "frobnicate")
      { number := "s02", doc_name := "design-decisions.md", phase := "design",
        gate_name := "enterprise_design_decisions", dependencies := [] }
      { feature_name := "demo", mode := AutomationMode.learning }
      = GateDecision.required ∧
    is_enterprise_gate_required (fun _ _ => some "learn_from_history")
      { number := "s02", doc_name := "design-decisions.md", phase := "design",
        gate_name := "enterprise_design_decisions", dependencies := [] }
      { feature_name := "demo", mode := AutomationMode.learning }
      = GateDecision.required := by
  refine ⟨?_, ?_, ?_, ?_, ?_, ?_⟩
  · exact unknown_behavior_fail_safe.1 _ _ _ rfl
  · exact unknown_behavior_fail_safe.2.1 _ _ _ _ rfl (by decide)
  · exact unknown_behavior_fail_safe.2.2.1 _ _ _ rfl
  · exact unknown_behavior_fail_safe.2.2.2.1 _ _ _ rfl
  · exact unknown_behavior_fail_safe.2.2.2.2.1 _ _ _ _ rfl (by decide)
  · exact unknown_behavior_fail_safe.2.2.2.2.2 _ _ _ rfl

/-- `execute_human_gate` on a single `"y"` answer approves. -/
theorem execute_human_gate_y : execute_human_gate ["y"] = true := rfl

/-- With an all-approving operator and all-succeeding documents, the step
loop prompts exactly the gates of the `required`-decision steps, in
catalog order, and succeeds. -/
theorem run_plan_all_yes (plan : List (WorkflowStep × GateDecision)) :
    run_plan (fun _ => ["y"]) (fun _ => true) plan =
      ((plan.filter (fun p => p.2 = GateDecision.required)).map
        (fun p => p.1.gate_name), true) := by
  induction plan with
  | nil => rfl
  | cons hd tl ih =>
    obtain ⟨step, decision⟩ := hd
    by_cases h : decision = GateDecision.required <;>
      simp [run_plan, execute_step, execute_human_gate_y, h, ih]

/-- C8 counterexample: the enterprise orchestrator presents the initial
run-confirmation prompt even in `autonomous` mode (its `execute` method
calls `input(...)` unconditionally after the dry-run check), refuting the
claim that in autonomous mode the orchestrator enters execution without
the confirmation prompt. -/
theorem enterprise_autonomous_prompts_cex :
    (execute_enterprise_workflow (fun _ _ => some "skip") []
      { feature_name := "demo", mode := AutomationMode.autonomous }
      false "y" (fun _ => "y") (fun _ => true)).promptedConfirmation = true :=
  rfl

/-- C8 amended: in the MVP orchestrator, `autonomous` mode enters the step
loop without the run-confirmation prompt, every other mode presents it and
cancels (running no step) unless the lowered answer is `"y"`; a step whose
decision is `required` still blocks for its gate prompt in autonomous mode
(with an all-approving operator the prompted gates are exactly the
`required` steps' gates, in order).  The enterprise orchestrator, by
contrast, presents the run-confirmation prompt in every mode, including
`autonomous`. -/
theorem autonomous_confirmation_policy :
    (∀ (gates : GateTable) (steps : List WorkflowStep)
       (ctx : ExecutionContext) (confirm : String)
       (gr : String → List String) (ds : String → Bool),
      ctx.mode = AutomationMode.autonomous →
      (execute_workflow gates steps ctx false confirm gr ds).promptedConfirmation
        = false) ∧
    (∀ (gates : GateTable) (steps : List WorkflowStep)
       (ctx : ExecutionContext) (confirm : String)
       (gr : String → List String) (ds : String → Bool),
      ctx.mode ≠ AutomationMode.autonomous →
      (execute_workflow gates steps ctx false confirm gr ds).promptedConfirmation
        = true) ∧
    (∀ (gates : GateTable) (steps : List WorkflowStep)
       (ctx : ExecutionContext) (confirm : String)
       (gr : String → List String) (ds : String → Bool),
      ctx.mode ≠ AutomationMode.autonomous → pyLower confirm ≠ "y" →
      execute_workflow gates steps ctx false confirm gr ds =
        { success := false, promptedConfirmation := true,
          gatesPrompted := [] }) ∧
    (∀ (gates : GateTable) (steps : List WorkflowStep)
       (ctx : ExecutionContext) (confirm : String),
      ctx.mode = AutomationMode.autonomous →
      (execute_workflow gates steps ctx false confirm (fun _ => ["y"])
        (fun _ => true)).gatesPrompted =
        ((create_execution_plan gates steps ctx).filter
          (fun p => p.2 = GateDecision.required)).map
            (fun p => p.1.gate_name)) ∧
    (∀ (gates : GateTable) (steps : List EnterpriseWorkflowStep)
       (ctx : EnterpriseExecutionContext) (confirm : String)
       (gr : String → String) (ds : String → Bool),
      (execute_enterprise_workflow gates steps ctx false confirm gr
        ds).promptedConfirmation = true) := by
  refine ⟨?_, ?_, ?_, ?_, ?_⟩
  · intro gates steps ctx confirm gr ds h
    simp [execute_workflow, h]
  · intro gates steps ctx confirm gr ds h
    by_cases hc : pyLower confirm = "y" <;> simp [execute_workflow, h, hc]
  · intro gates steps ctx confirm gr ds h hc
    simp [execute_workflow, h, hc]
  · intro gates steps ctx confirm h
    simp [execute_workflow, h, run_plan_all_yes]
  · intro gates steps ctx confirm gr ds
    by_cases hc : pyLower confirm = "y" <;>
      simp [execute_enterprise_workflow, hc]

/-- Witness for C8's amended theorem on the spec's three-step scenario
(`A: skip, B: required, C: skip`) and concrete contexts. -/
theorem autonomous_confirmation_policy_witness :
    (execute_workflow
      (fun _ g => if g = "gate_b" then some "required" else some "skip")
      [{ number := "01", doc_name := "A.md", phase := "p", gate_name := "gate_a",
         dependencies := [] },
       { number := "02", doc_name := "B.md", phase := "p", gate_name := "gate_b",
         dependencies := [] },
       { number := "03", doc_name := "C.md", phase := "p", gate_name := "gate_c",
         dependencies := [] }]
      { feature_name := "demo", mode := AutomationMode.autonomous }
      false "x" (fun _ => ["y"]) (fun _ => true)).promptedConfirmation
      = false ∧
    (execute_workflow (fun _ _ => some "skip") []
      { feature_name := "demo", mode := AutomationMode.guided }
      false "y" (fun _ => ["y"]) (fun _ => true)).promptedConfirmation
      = true ∧
    execute_workflow (fun _ _ => some "skip") []
      { feature_name := "demo", mode := AutomationMode.guided }
      false "no" (fun _ => ["y"]) (fun _ => true) =
      { success := false, promptedConfirmation := true, gatesPrompted := [] } ∧
    (execute_workflow
      (fun _ g => if g = "gate_b" then some "required" else some "skip")
      [{ number := "01", doc_name := "A.md", phase := "p", gate_name := "gate_a",
         dependencies := [] },
       { number := "02", doc_name := "B.md", phase := "p", gate_name := "gate_b",
         dependencies := [] },
       { number := "03", doc_name := "C.md", phase := "p", gate_name := "gate_c",
         dependencies := [] }]
      { feature_name := "demo", mode := AutomationMode.autonomous }
      false "x" (fun _ => ["y"]) (fun _ => true)).gatesPrompted = ["gate_b"] ∧
    (execute_enterprise_workflow (fun _ _ => some "skip") []
      { feature_name := "demo", mode := AutomationMode.autonomous }
      false "y" (fun _ => "y") (fun _ => true)).promptedConfirmation = true := by
  refine ⟨?_, ?_, ?_, ?_, ?_⟩
  · exact autonomous_confirmation_policy.1 _ _ _ _ _ _ rfl
  · exact autonomous_confirmation_policy.2.1 _ _ _ _ _ _ (by decide)
  · exact autonomous_confirmation_policy.2.2.1 _ _ _ _ _ _ (by decide)
      (by decide)
  · rw [autonomous_confirmation_policy.2.2.2.1 _ _ _ "x" rfl]
    rfl
  · exact autonomous_confirmation_policy.2.2.2.2 _ _ _ _ _ _

/-- C10: at a required human gate of the MVP runner, the `'s'` ("Skip this
step") answer returns approval, so the step's generation executes exactly
as after a `'y'` answer; among single answers, exactly `'n'` and the empty
answer (after lowercasing and stripping) produce the rejecting decision
that halts the run. -/
theorem gate_skip_answer_executes_step :
    (∀ (rest : List String) (docSuccess : Bool),
      execute_step GateDecision.required ("s" :: rest) docSuccess =
        execute_step GateDecision.required ("y" :: rest) docSuccess ∧
      (execute_step GateDecision.required ("s" :: rest)
        docSuccess).generationRan = true) ∧
    (∀ raw : String, gate_response_decision raw = some false ↔
      (pyStrip (pyLower raw) = "n" ∨ pyStrip (pyLower raw) = "")) := by
  constructor
  · intro rest ds
    exact ⟨rfl, rfl⟩
  · intro raw
    simp only [gate_response_decision]
    split_ifs with h1 h2 h3 <;> simp_all

/- ### Adapter, manifest and pipeline theorems -/

/-- A list is a prefix of itself followed by anything. -/
theorem listIsPrefix_self_append (l r : List Char) :
    listIsPrefix l (l ++ r) = true := by
  induction l with
  | nil => rfl
  | cons a as ih => simp [listIsPrefix, ih]

/-- A contiguous occurrence is found by `listContains`. -/
theorem listContains_pre_self (pre needle suf : List Char) :
    listContains needle (pre ++ (needle ++ suf)) = true := by
  induction pre with
  | nil =>
    cases needle with
    | nil =>
      cases suf with
      | nil => rfl
      | cons c cs => simp [listContains, listIsPrefix]
    | cons c cs =>
      have hpre := listIsPrefix_self_append (c :: cs) suf
      simp only [List.cons_append] at hpre
      simp [listContains, hpre]
  | cons p ps ih => simp [listContains, ih]

/-- `pyJoin` of a nonempty list starts with its head. -/
theorem pyJoin_cons (sep a : String) (as : List String) :
    ∃ t, pyJoin sep (a :: as) = a ++ t := by
  suffices hgen : ∀ (as : List String) (a : String),
      ∃ t, as.foldl (fun acc x => acc ++ sep ++ x) a = a ++ t by
    simpa [pyJoin] using hgen as a
  intro as
  induction as with
  | nil => exact fun a => ⟨"", (String.append_empty a).symm⟩
  | cons x xs ih =>
    intro a
    obtain ⟨t, ht⟩ := ih (a ++ sep ++ x)
    refine ⟨sep ++ x ++ t, ?_⟩
    calc (x :: xs).foldl (fun acc x => acc ++ sep ++ x) a
        = xs.foldl (fun acc x => acc ++ sep ++ x) (a ++ sep ++ x) := rfl
      _ = ((a ++ sep) ++ x) ++ t := ht
      _ = a ++ ((sep ++ x) ++ t) := by simp [String.append_assoc]

/-- C3: any `generate_content` call made while the accumulated usage cost
already meets or exceeds the configured limit raises the cost-limit error
before any provider attempt: zero attempts are made, no backoff sleeps
happen, and the usage totals are unchanged. -/
theorem cost_limit_blocks_call (cfg : LLMConfig) (tracker : UsageTracker)
    (backend : Nat → AttemptOutcome) (criteria : List Criterion)
    (h : tracker.total_cost_usd ≥ cfg.cost_limit_usd) :
    generate_content cfg tracker backend criteria =
      (Except.error "Cost limit exceeded",
       { tracker := tracker, attemptsMade := 0, sleeps := [] }) := by
  simp [generate_content, h]

/-- Witness for C3 at the exact-equality boundary: accumulated cost `10`
against limit `10`. -/
theorem cost_limit_blocks_call_witness :
    generate_content
      { provider := "openai", model := "gpt-3.5-turbo", max_retries := 3,
        cost_limit_usd := 10 }
      { total_tokens := 4200, total_cost_usd := 10 }
      (fun _ => AttemptOutcome.ok 100 1 "text") [] =
      (Except.error "Cost limit exceeded",
       { tracker := { total_tokens := 4200, total_cost_usd := 10 },
         attemptsMade := 0, sleeps := [] }) :=
  cost_limit_blocks_call _ _ _ _ (by norm_num)

/-- When every attempt in range fails, the retry loop makes exactly
`remaining` attempts, leaves the tracker unchanged and propagates the
final attempt, with the exception of the final message. -/
theorem generate_content_loop_all_fail (backend : Nat → AttemptOutcome)
    (criteria : List Criterion) (p m : String) (msg : Nat → String) :
    ∀ (remaining attempt : Nat) (st : GenState), 0 < remaining →
      (∀ i, attempt ≤ i → i < attempt + remaining →
        backend i = AttemptOutcome.err (msg i)) →
      (generate_content_loop backend criteria p m attempt remaining st).1 =
        Except.error (msg (attempt + remaining - 1)) ∧
      (generate_content_loop backend criteria p m attempt
        remaining st).2.attemptsMade = st.attemptsMade + remaining ∧
      (generate_content_loop backend criteria p m attempt
        remaining st).2.tracker = st.tracker := by
  intro remaining
  induction remaining with
  | zero => intro attempt st h; omega
  | succ r ih =>
    intro attempt st _ hmsg
    have hb : backend attempt = AttemptOutcome.err (msg attempt) :=
      hmsg attempt le_rfl (by omega)
    cases r with
    | zero =>
      simp [generate_content_loop, hb, Nat.add_sub_cancel]
    | succ r' =>
      have harg : ∀ i, attempt + 1 ≤ i → i < (attempt + 1) + (r' + 1) →
          backend i = AttemptOutcome.err (msg i) := by
        intro i h1 h2
        exact hmsg i (by omega) (by omega)
      obtain ⟨h1, h2, h3⟩ := ih (attempt + 1)
        { tracker := st.tracker, attemptsMade := st.attemptsMade + 1,
          sleeps := st.sleeps ++ [2 ^ attempt] }
        (Nat.succ_pos _) harg
      have hstep : generate_content_loop backend criteria p m attempt
          (r' + 1 + 1) st =
          generate_content_loop backend criteria p m (attempt + 1) (r' + 1)
            { tracker := st.tracker, attemptsMade := st.attemptsMade + 1,
              sleeps := st.sleeps ++ [2 ^ attempt] } := by
        simp [generate_content_loop, hb]
      have hidx : attempt + 1 + (r' + 1) - 1 = attempt + (r' + 1 + 1) - 1 := by
        omega
      refine ⟨?_, ?_, ?_⟩
      · rw [hstep, h1, hidx]
      · rw [hstep, h2]
        show st.attemptsMade + 1 + (r' + 1) = st.attemptsMade + (r' + 1 + 1)
        omega
      · rw [hstep, h3]

/-- C4: with `maxRetries = 3` against a backend that fails on the first
two attempts and succeeds on the third, `generate_content` returns the
successful response after exactly 3 attempts, sleeping 1 then 2 seconds
(base delay doubling); and against a backend whose every attempt in range
fails, the final attempt, with the exception carrying its message,
propagates to the caller after exactly `maxRetries` attempts. -/
theorem retry_behavior :
    (∀ (cfg : LLMConfig) (tracker : UsageTracker) (m1 m2 content : String)
       (tokens : Nat) (cost : ℚ),
      cfg.max_retries = 3 → tracker.total_cost_usd < cfg.cost_limit_usd →
      generate_content cfg tracker
        (fun i => if i = 0 then AttemptOutcome.err m1
                  else if i = 1 then AttemptOutcome.err m2
                  else AttemptOutcome.ok tokens cost content) [] =
        (Except.ok { content := content, provider := cfg.provider,
                     model := cfg.model, tokens_used := tokens,
                     cost_usd := cost },
         { tracker := { total_tokens := tracker.total_tokens + tokens,
                        total_cost_usd := tracker.total_cost_usd + cost },
           attemptsMade := 3, sleeps := [1, 2] })) ∧
    (∀ (cfg : LLMConfig) (tracker : UsageTracker)
       (backend : Nat → AttemptOutcome) (criteria : List Criterion)
       (msg : Nat → String),
      0 < cfg.max_retries → tracker.total_cost_usd < cfg.cost_limit_usd →
      (∀ i, i < cfg.max_retries → backend i = AttemptOutcome.err (msg i)) →
      (generate_content cfg tracker backend criteria).1 =
        Except.error (msg (cfg.max_retries - 1)) ∧
      (generate_content cfg tracker backend criteria).2.attemptsMade =
        cfg.max_retries) := by
  constructor
  · intro cfg tracker m1 m2 content tokens cost h3 hlt
    unfold generate_content
    rw [if_neg (not_le.mpr hlt), h3]
    norm_num [generate_content_loop]
  · intro cfg tracker backend criteria msg hpos hlt hfail
    unfold generate_content
    rw [if_neg (not_le.mpr hlt)]
    obtain ⟨h1, h2, _⟩ := generate_content_loop_all_fail backend criteria
      cfg.provider cfg.model msg cfg.max_retries 0
      { tracker := tracker, attemptsMade := 0, sleeps := [] }
      hpos (fun i _ hi => hfail i (by omega))
    constructor
    · rw [h1]
      norm_num
    · rw [h2]
      show (0 : Nat) + cfg.max_retries = cfg.max_retries
      omega

/-- Witness for C4: a concrete fail-fail-succeed backend returns the
third attempt after 3 attempts with sleeps `[1, 2]`, and a concrete
always-failing backend propagates its message after 3 attempts. -/
theorem retry_behavior_witness :
    generate_content
      { provider := "openai", model := "gpt-4", max_retries := 3,
        cost_limit_usd := 10 }
      { total_tokens := 0, total_cost_usd := 0 }
      (fun i => if i = 0 then AttemptOutcome.err "timeout"
                else if i = 1 then AttemptOutcome.err "rate limit"
                else AttemptOutcome.ok 50 (3 / 100) "generated text") [] =
      (Except.ok { content := "generated text", provider := "openai",
                   model := "gpt-4", tokens_used := 50, cost_usd := 3 / 100 },
       { tracker := { total_tokens := 0 + 50, total_cost_usd := 0 + 3 / 100 },
         attemptsMade := 3, sleeps := [1, 2] }) ∧
    (generate_content
      { provider := "openai", model := "gpt-4", max_retries := 3,
        cost_limit_usd := 10 }
      { total_tokens := 0, total_cost_usd := 0 }
      (fun _ => AttemptOutcome.err "boom") []).1 = Except.error "boom" ∧
    (generate_content
      { provider := "openai", model := "gpt-4", max_retries := 3,
        cost_limit_usd := 10 }
      { total_tokens := 0, total_cost_usd := 0 }
      (fun _ => AttemptOutcome.err "boom") []).2.attemptsMade = 3 := by
  refine ⟨?_, ?_, ?_⟩
  · exact retry_behavior.1 _ _ _ _ _ _ _ rfl (by norm_num)
  · exact (retry_behavior.2 _ _ _ _ (fun _ => "boom") (by norm_num)
      (by norm_num) (fun i _ => rfl)).1
  · exact (retry_behavior.2 _ _ _ _ (fun _ => "boom") (by norm_num)
      (by norm_num) (fun i _ => rfl)).2

/-- C5: `save_to_manifest` on an existing manifest appends the context
lists to the recorded `execution_log` and `generated_files`, preserving
every prior entry in order with no truncation and no duplication; over
any sequence of write / read-back / append / write cycles, the final
manifest holds the original entries followed by each cycle\x27s appended
entries, in order. -/
theorem manifest_append_preserves :
    (∀ (m : Executor.FeatureManifest) (ctx : Executor.WorkflowContext)
       (now : String),
      (Executor.save_to_manifest (some m) ctx now).execution_log =
        m.execution_log ++ ctx.execution_log ∧
      (Executor.save_to_manifest (some m) ctx now).generated_files =
        m.generated_files ++ ctx.generated_files) ∧
    (∀ (m : Executor.FeatureManifest)
       (cycles : List (Executor.WorkflowContext × String)),
      (Executor.save_cycles m cycles).execution_log =
        m.execution_log ++ (cycles.map (fun c => c.1.execution_log)).flatten ∧
      (Executor.save_cycles m cycles).generated_files =
        m.generated_files ++
          (cycles.map (fun c => c.1.generated_files)).flatten) := by
  constructor
  · exact fun m ctx now => ⟨rfl, rfl⟩
  · intro m cycles
    induction cycles generalizing m with
    | nil => simp [Executor.save_cycles]
    | cons c cs ih =>
      obtain ⟨ctx, now⟩ := c
      simpa [Executor.save_cycles, Executor.save_to_manifest,
        List.append_assoc] using ih (Executor.save_to_manifest (some m) ctx now)

/-- C6 counterexample: in the MVP runner, a step whose workflow document
path does not exist on disk is failed up-front by
`_execute_document_workflow`, before the generation pipeline (and its
filename-only prompt fallback) is ever invoked — so the workflow step IS
failed solely because the document body is unavailable. -/
theorem missing_doc_fails_runner_step_cex :
    execute_document_workflow (fun _ => none) "01-mvp-entrypoint.md" true
      = false := rfl

/-- C6 amended: within the content-generation engine, prompt assembly for
a request whose workflow document path does not exist still produces
(without raising) a non-empty prompt that contains the document
reference, via the filename-only fallback; however the MVP runner checks
the document path before invoking the pipeline and fails the step when it
is missing, so the no-fail guarantee holds only from the engine\x27s prompt
assembly onward. -/
theorem missing_doc_prompt_fallback (fs : FileSystem)
    (cfg : Engine.PromptEngineConfig) (req : Engine.ContentGenerationRequest)
    (h : fs req.workflow_document = none) :
    (Engine.create_specialized_prompt fs cfg req).prompt ≠ "" ∧
    strContains (Engine.create_specialized_prompt fs cfg req).prompt
      req.workflow_document = true := by
  have hwd : Engine.workflow_doc_parts fs req.workflow_document =
      ("# Workflow Document: " ++ req.workflow_document) ::
      ["Please execute the instructions in the workflow document: " ++
        req.workflow_document] := by
    unfold Engine.workflow_doc_parts
    rw [h]
  obtain ⟨l, hl⟩ : ∃ l, (Engine.create_specialized_prompt fs cfg req).prompt =
      pyJoin "\n" (("# Workflow Document: " ++ req.workflow_document) :: l) := by
    refine ⟨("Please execute the instructions in the workflow document: " ++
        req.workflow_document) ::
      (Engine.context_parts req ++ Engine.project_data_parts req ++
       Engine.previous_parts req ++ Engine.directive_parts req ++
       Engine.template_parts req ++ Engine.instruction_parts cfg ++
       Engine.output_parts req ++ Engine.feature_parts req ++
       Engine.final_override_parts req), ?_⟩
    show pyJoin "\n" (Engine.prompt_parts fs cfg req) = _
    unfold Engine.prompt_parts
    rw [hwd]
    simp only [List.cons_append, List.nil_append, List.append_assoc]
  obtain ⟨t, ht⟩ := pyJoin_cons "\n" _ l
  rw [hl, ht]
  constructor
  · intro hEmpty
    have hlen := congrArg String.length hEmpty
    rw [String.length_append, String.length_append] at hlen
    have h21 : ("# Workflow Document: ").length = 21 := rfl
    have h0 : ("" : String).length = 0 := rfl
    omega
  · show strContains (("# Workflow Document: " ++ req.workflow_document) ++ t)
      req.workflow_document = true
    unfold strContains
    rw [String.data_append, String.data_append, List.append_assoc]
    exact listContains_pre_self _ _ _

/-- Witness for C6\x27s amended theorem: an empty file store and a concrete
PRD request. -/
theorem missing_doc_prompt_fallback_witness :
    (Engine.create_specialized_prompt (fun _ => none) emptyPromptCfg
      sampleRequest).prompt ≠ "" ∧
    strContains
      (Engine.create_specialized_prompt (fun _ => none) emptyPromptCfg
        sampleRequest).prompt
      sampleRequest.workflow_document = true :=
  missing_doc_prompt_fallback _ _ _ rfl

/-- C9: when any configured validation criterion fails,
`_validate_response` keeps the content unchanged, sets `validated` to
`false` and records each failure message in order in
`validation_errors`; the engine still post-processes and returns the
content — the validation failure does not halt the step. -/
theorem validation_failure_nonfatal (response : LLMResponse)
    (criteria : List Criterion) (req : Engine.ContentGenerationRequest)
    (now : String)
    (h : ∃ c ∈ criteria, (checkCriterion response.content c).isSome) :
    (validate_response response criteria).content = response.content ∧
    (validate_response response criteria).validated = false ∧
    (validate_response response criteria).validation_errors =
      criteria.filterMap (checkCriterion response.content) ∧
    Engine.engine_generate_content
      (Except.ok (validate_response response criteria)) req now =
      Except.ok (Engine.post_process_content response.content req now) := by
  obtain ⟨c, hc, hsome⟩ := h
  obtain ⟨msg, hmsg⟩ := Option.isSome_iff_exists.mp hsome
  have hmem : msg ∈ criteria.filterMap (checkCriterion response.content) :=
    List.mem_filterMap.mpr ⟨c, hc, hmsg⟩
  refine ⟨rfl, ?_, rfl, rfl⟩
  cases hl : criteria.filterMap (checkCriterion response.content) with
  | nil => rw [hl] at hmem; cases hmem
  | cons x xs => simp [validate_response, hl]

/-- Witness for C9: an empty response against the `not_empty` criterion. -/
theorem validation_failure_nonfatal_witness :
    (validate_response
      { content := "", provider := "openai", model := "gpt-4",
        tokens_used := 0, cost_usd := 0 } [Criterion.notEmpty]).content
      = "" ∧
    (validate_response
      { content := "", provider := "openai", model := "gpt-4",
        tokens_used := 0, cost_usd := 0 } [Criterion.notEmpty]).validated
      = false ∧
    (validate_response
      { content := "", provider := "openai", model := "gpt-4",
        tokens_used := 0, cost_usd := 0 }
      [Criterion.notEmpty]).validation_errors =
      [Criterion.notEmpty].filterMap (checkCriterion "") ∧
    Engine.engine_generate_content
      (Except.ok (validate_response
        { content := "", provider := "openai", model := "gpt-4",
          tokens_used := 0, cost_usd := 0 } [Criterion.notEmpty]))
      sampleRequest "2025-01-01" =
      Except.ok (Engine.post_process_content "" sampleRequest "2025-01-01") :=
  validation_failure_nonfatal _ _ _ _
    ⟨Criterion.notEmpty, by simp, by decide⟩

end AIWorkflow
